import Mathlib

/-!
Shallow embedding of the workflow-orchestration subsystem of the
manus-builder repository, covering:

* `src/server/orchestrator/types.ts` — the status vocabulary, the response
  shapes and the two error classes (`OrchestratorServiceError`,
  `OrchestratorUnavailableError`);
* `src/server/orchestrator/client.ts` — `OrchestratorClient.request`,
  `startWorkflow`, `getWorkflowStatus`, `getWorkflowResult`, `isHealthy`
  and `waitForCompletion`;
* the tRPC procedures `ai.orchestrate` and `ai.workflowStatus` of the
  server router;
* the workflow engine / Workflow API of the Python orchestrator service,
  which is not part of this repository's TypeScript sources and is
  therefore modelled from the specification (clearly marked below).

Asynchronous calls are embedded as pure functions over the *outcome* of
the underlying I/O: a `fetch` call is represented by a `FetchOutcome`
value (reached with a parsed body, reached with a non-ok HTTP status,
aborted by the client-side timeout, failed at the network layer, or some
other exception), and a throwing TypeScript function becomes a Lean
function into `Except`.
-/

namespace ManusBuilder

/-- The status vocabulary of `WorkflowStatus` in
`src/server/orchestrator/types.ts`: the union type
`"started" | "running" | "planning_complete" | "needs_revision" |
"coding_revision" | "completed" | "failed" | "unknown"`. -/
inductive WorkflowStatus where
  | started
  | running
  | planning_complete
  | needs_revision
  | coding_revision
  | completed
  | failed
  | unknown
deriving DecidableEq, Repr, Fintype

/-- The string each `WorkflowStatus` member stands for in the source. -/
def WorkflowStatus.toStr : WorkflowStatus → String
  | .started => "started"
  | .running => "running"
  | .planning_complete => "planning_complete"
  | .needs_revision => "needs_revision"
  | .coding_revision => "coding_revision"
  | .completed => "completed"
  | .failed => "failed"
  | .unknown => "unknown"

/-- The list of status strings admitted by the source union type
`WorkflowStatus` (types.ts lines 30–38), in source order. -/
def workflowStatusValues : List String :=
  ["started", "running", "planning_complete", "needs_revision",
   "coding_revision", "completed", "failed", "unknown"]

/-- `WorkflowStartResponse` (types.ts): `workflow_id: string` together
with the literal type `status: "started"`, embedded as a field whose only
admissible value is `"started"`. -/
structure WorkflowStartResponse where
  workflow_id : String
  status : String
  status_literal : status = "started"

/-- `WorkflowStatusResponse` (types.ts): the body of
`GET /workflow/{id}/status`.  `error?: string | null` becomes
`Option String`. -/
structure WorkflowStatusResponse where
  workflow_id : String
  status : WorkflowStatus
  current_agent : String
  iteration : Nat
  error : Option String
deriving DecidableEq, Repr

/-- `WorkflowResultResponse` (types.ts): the body of
`GET /workflow/{id}/result`; `files: Record<string, string>` becomes an
association list. -/
structure WorkflowResultResponse where
  workflow_id : String
  status : WorkflowStatus
  files : List (String × String)
  plan : List String
  explanation : Option String
deriving DecidableEq, Repr

/-- `HealthResponse` (types.ts).  The TypeScript declaration gives
`status` the literal type `"ok"`, but the value is produced by an
unchecked cast of `response.json()`, and `isHealthy` re-checks it at
runtime with `=== "ok"`; the field is therefore embedded as an arbitrary
string. -/
structure HealthResponse where
  status : String
deriving DecidableEq, Repr

/-- The two error classes of types.ts plus the "unknown error rethrown
as-is" case of `request`'s catch block:

* `serviceError message statusCode detail` — `OrchestratorServiceError`;
* `unavailable message` — `OrchestratorUnavailableError`;
* `other message` — any other exception, rethrown unchanged. -/
inductive ClientError where
  | serviceError (message : String) (statusCode : Nat) (detail : Option String)
  | unavailable (message : String)
  | other (message : String)
deriving DecidableEq, Repr

/-- The possible outcomes of one `fetch` call as observed by
`OrchestratorClient.request` (client.ts lines 50–120):

* `ok body` — the service replied with `response.ok` and the body parsed
  as JSON (already cast to the expected response type);
* `httpError status statusText detail` — the service replied with a
  non-ok HTTP status; `detail` is the parsed `detail` field of the error
  body, or `none` when the error body failed to parse;
* `abortError` — the per-request timeout fired (`AbortError`);
* `networkError message` — the service process could not be reached
  (`TypeError`, or an `Error` whose message mentions `fetch`): DNS
  failure, connection refused, service down;
* `otherError message` — any other exception (e.g. a JSON parse failure
  of a successful response). -/
inductive FetchOutcome (α : Type) where
  | ok (body : α)
  | httpError (status : Nat) (statusText : String) (detail : Option String)
  | abortError
  | networkError (message : String)
  | otherError (message : String)
deriving DecidableEq, Repr

/-- An outcome in which the service process itself could not be reached:
the timeout fired or the connection failed at the network layer. -/
def FetchOutcome.unreachable : FetchOutcome α → Prop
  | .abortError => True
  | .networkError _ => True
  | _ => False

/-- `OrchestratorClient.request` (client.ts lines 50–120) as a function
of the fetch outcome.  A non-ok response raises
`OrchestratorServiceError` carrying the HTTP status; an abort raises
`OrchestratorUnavailableError` with the timeout message; a network
failure raises `OrchestratorUnavailableError` with the connect message;
anything else is rethrown unchanged. -/
def request (baseUrl : String) (timeout : Nat) :
    FetchOutcome α → Except ClientError α
  | .ok body => .ok body
  | .httpError status statusText detail =>
      .error (.serviceError
        ("Orchestrator request failed: " ++ toString status ++ " " ++ statusText)
        status detail)
  | .abortError =>
      .error (.unavailable
        ("Orchestrator request timed out after " ++ toString timeout ++ "ms"))
  | .networkError message =>
      .error (.unavailable
        ("Failed to connect to orchestrator at " ++ baseUrl ++ ": " ++ message))
  | .otherError message => .error (.other message)

/-- `DEFAULT_TIMEOUT` (client.ts line 20): 30 seconds in milliseconds. -/
def DEFAULT_TIMEOUT : Nat := 30000

/-- `baseUrl.replace(/\/$/, "")` of the constructor: drop one trailing
slash when present. -/
def stripTrailingSlash (s : String) : String :=
  if s.endsWith "/" then s.dropRight 1 else s

/-- The `OrchestratorClient` instance state: `baseUrl` and `timeout`. -/
structure OrchestratorClient where
  baseUrl : String
  timeout : Nat
deriving DecidableEq, Repr

/-- The `OrchestratorClient` constructor (client.ts lines 35–39): the
`timeout` parameter defaults to `DEFAULT_TIMEOUT`; a trailing slash of
`baseUrl` is removed. -/
def OrchestratorClient.create (baseUrl : String) (timeout : Option Nat) :
    OrchestratorClient :=
  { baseUrl := stripTrailingSlash baseUrl
    timeout := timeout.getD DEFAULT_TIMEOUT }

/-- `createOrchestratorClient` (client.ts lines 236–241): forwards to
the constructor. -/
def createOrchestratorClient (baseUrl : String) (timeout : Option Nat) :
    OrchestratorClient :=
  OrchestratorClient.create baseUrl timeout

/-- A call made through the client: `request` with the client's own
`baseUrl` and `timeout`. -/
def OrchestratorClient.call (c : OrchestratorClient)
    (o : FetchOutcome α) : Except ClientError α :=
  request c.baseUrl c.timeout o

/-- `OrchestratorClient.startWorkflow` (client.ts lines 143–148): a
plain `request` against `/workflow/start`, returning the parsed
`WorkflowStartResponse`. -/
def OrchestratorClient.startWorkflow (c : OrchestratorClient)
    (o : FetchOutcome WorkflowStartResponse) :
    Except ClientError WorkflowStartResponse :=
  c.call o

/-- `OrchestratorClient.getWorkflowStatus` (client.ts lines 157–161). -/
def OrchestratorClient.getWorkflowStatus (c : OrchestratorClient)
    (o : FetchOutcome WorkflowStatusResponse) :
    Except ClientError WorkflowStatusResponse :=
  c.call o

/-- `OrchestratorClient.getWorkflowResult` (client.ts lines 170–174). -/
def OrchestratorClient.getWorkflowResult (c : OrchestratorClient)
    (o : FetchOutcome WorkflowResultResponse) :
    Except ClientError WorkflowResultResponse :=
  c.call o

/-- `OrchestratorClient.isHealthy` (client.ts lines 127–134): request
`/health`; on success compare the body's `status` with `"ok"`; on any
thrown error return `false`.  Total by construction — it never raises. -/
def isHealthy (baseUrl : String) (timeout : Nat)
    (o : FetchOutcome HealthResponse) : Bool :=
  match request baseUrl timeout o with
  | .ok r => r.status == "ok"
  | .error _ => false

/-- The `status.error || "Unknown error"` expression of
`waitForCompletion`'s failed branch: a missing or empty (falsy) error
string is replaced by `"Unknown error"`. -/
def errorTextOrDefault : Option String → String
  | some e => if e = "" then "Unknown error" else e
  | none => "Unknown error"

/-- The `status.error || undefined` expression: a missing or empty
(falsy) error string becomes `undefined`. -/
def errorDetailOrNone : Option String → Option String
  | some e => if e = "" then none else some e
  | none => none

/-- The error thrown by `waitForCompletion` when the polled status is
`failed` (client.ts lines 209–215): an `OrchestratorServiceError` with
HTTP status 500 carrying the job's recorded error. -/
def failedWorkflowError (workflowId : String) (jobError : Option String) :
    ClientError :=
  .serviceError
    ("Workflow " ++ workflowId ++ " failed: " ++ errorTextOrDefault jobError)
    500 (errorDetailOrNone jobError)

/-- The error thrown by `waitForCompletion` when `maxWait` elapses with
no terminal state observed (client.ts lines 221–225): an
`OrchestratorServiceError` with HTTP status 408 (Request Timeout).  The
source's `maxWait / 1000` is JavaScript number division; it is embedded
as `Nat` division, which agrees with the source whenever `maxWait` is a
multiple of 1000 (the only difference is the decimal rendering of the
seconds figure inside the detail string). -/
def pollTimeoutError (workflowId : String) (maxWait : Nat) : ClientError :=
  .serviceError
    ("Workflow " ++ workflowId ++ " timed out after " ++ toString maxWait ++ "ms")
    408
    (some ("Workflow did not complete within " ++ toString (maxWait / 1000)
      ++ " seconds"))

/-- The polling loop of `waitForCompletion` (client.ts lines 201–219).
`poll k` is the outcome of the `k`-th `getWorkflowStatus` call and
`result` the outcome of the single `getWorkflowResult` call made once a
`completed` status is seen.  Time is idealised: the `k`-th loop entry
happens after `k` sleeps of `pollInterval` milliseconds, so the guard
`Date.now() - startTime < maxWait` becomes `k * pollInterval < maxWait`.
The `fuel` argument makes the recursion structural; exhausting it yields
the same timeout error the source's loop exit yields, and with
`1 ≤ pollInterval` the fuel `maxWait + 1` used below is never exhausted
before the guard fails. -/
def waitLoop (poll : Nat → Except ClientError WorkflowStatusResponse)
    (result : Except ClientError WorkflowResultResponse)
    (workflowId : String) (pollInterval maxWait : Nat) :
    Nat → Nat → Except ClientError WorkflowResultResponse
  | _, 0 => .error (pollTimeoutError workflowId maxWait)
  | k, fuel + 1 =>
    if k * pollInterval < maxWait then
      match poll k with
      | .error e => .error e
      | .ok s =>
        if s.status = .completed then result
        else if s.status = .failed then
          .error (failedWorkflowError workflowId s.error)
        else
          waitLoop poll result workflowId pollInterval maxWait (k + 1) fuel
    else
      .error (pollTimeoutError workflowId maxWait)

/-- `OrchestratorClient.waitForCompletion` (client.ts lines 194–226) as
a function of the successive poll outcomes and the result outcome. -/
def waitForCompletion (poll : Nat → Except ClientError WorkflowStatusResponse)
    (result : Except ClientError WorkflowResultResponse)
    (workflowId : String) (pollInterval maxWait : Nat) :
    Except ClientError WorkflowResultResponse :=
  waitLoop poll result workflowId pollInterval maxWait 0 (maxWait + 1)

/-!
The tRPC router procedures `ai.orchestrate` and `ai.workflowStatus` of
the server router.  The one-shot LLM generation of the fallback path
(`invokeLLM`, content extraction and `JSON.parse`) is an outbound call
to an external collaborator; it is represented by its outcome — `ok`
with the parsed `{files, explanation}` object (both fields required by
the strict JSON schema) or `error` with the message of the `Error` the
source throws (missing content, or a JSON parse failure).
-/

/-- The parsed body of a successful one-shot generation: the strict JSON
schema requires both `files` and `explanation`. -/
structure GenerationResult where
  files : List (String × String)
  explanation : String
deriving DecidableEq, Repr

/-- An error escaping a router procedure: either one of the client's
typed errors, rethrown, or a plain `Error` thrown with a message. -/
inductive ThrownError where
  | client (e : ClientError)
  | generic (message : String)
deriving DecidableEq, Repr

/-- The value returned by `ai.orchestrate`: the orchestrated branch
returns `{workflowId, status, usedOrchestrator: true}` and the fallback
branch returns
`{workflowId: null, status: "completed", usedOrchestrator: false, files, explanation}`.
Fields absent from a branch are `none`. -/
structure OrchestrateResponse where
  workflowId : Option String
  status : String
  usedOrchestrator : Bool
  files : Option (List (String × String))
  explanation : Option String
deriving Repr

/-- `ai.orchestrate` (server router): try `startWorkflow`; on
`OrchestratorUnavailableError` fall back to the one-shot generation; any
other error is rethrown. -/
def orchestrate (startOutcome : Except ClientError WorkflowStartResponse)
    (fallbackGeneration : Except String GenerationResult) :
    Except ThrownError OrchestrateResponse :=
  match startOutcome with
  | .ok r =>
    .ok { workflowId := some r.workflow_id, status := r.status
          usedOrchestrator := true, files := none, explanation := none }
  | .error e =>
    match e with
    | .unavailable _ =>
      match fallbackGeneration with
      | .ok g =>
        .ok { workflowId := none, status := "completed"
              usedOrchestrator := false, files := some g.files
              explanation := some g.explanation }
      | .error m => .error (.generic m)
    | _ => .error (.client e)

/-- The value returned by `ai.workflowStatus`.  The full view (terminal
status with a fetched result) populates `files`, `plan` and
`explanation`; the status-only view leaves them `none`; the
unavailable-fallback view also leaves `currentAgent` and `iteration`
`none`. -/
structure WorkflowStatusView where
  workflowId : String
  status : WorkflowStatus
  currentAgent : Option String
  iteration : Option Nat
  files : Option (List (String × String))
  plan : Option (List String)
  explanation : Option String
  error : Option String
deriving DecidableEq, Repr

/-- `ai.workflowStatus` (server router): query `getWorkflowStatus`; on a
terminal status additionally try `getWorkflowResult`, swallowing any
error of that inner call and returning the status-only view; if the
status query itself throws `OrchestratorUnavailableError`, return a
synthetic `failed` view instead of propagating; rethrow anything else.
`resultOutcome` is the outcome the `getWorkflowResult` call would have
(it is only consulted on a terminal status). -/
def workflowStatusQuery (workflowId : String)
    (statusOutcome : Except ClientError WorkflowStatusResponse)
    (resultOutcome : Except ClientError WorkflowResultResponse) :
    Except ClientError WorkflowStatusView :=
  match statusOutcome with
  | .ok s =>
    if s.status = .completed ∨ s.status = .failed then
      match resultOutcome with
      | .ok r =>
        .ok { workflowId := workflowId, status := r.status
              currentAgent := some s.current_agent
              iteration := some s.iteration
              files := some r.files, plan := some r.plan
              explanation := r.explanation, error := s.error }
      | .error _ =>
        .ok { workflowId := workflowId, status := s.status
              currentAgent := some s.current_agent
              iteration := some s.iteration
              files := none, plan := none, explanation := none
              error := s.error }
    else
      .ok { workflowId := workflowId, status := s.status
            currentAgent := some s.current_agent
            iteration := some s.iteration
            files := none, plan := none, explanation := none
            error := s.error }
  | .error e =>
    match e with
    | .unavailable _ =>
      .ok { workflowId := workflowId, status := .failed
            currentAgent := none, iteration := none
            files := none, plan := none, explanation := none
            error := some "Orchestrator service is unavailable" }
    | _ => .error e

/-!
The Workflow Engine and Workflow API live in the Python orchestrator
service (`services/orchestrator`), whose code is not among this
repository's TypeScript sources; they are modelled below from the
specification's state machine (§4.2), job data model (§3) and API
contract (§4.4/§6).
-/

/-- Modelled from the spec: the engine-side state machine's states —
the §3 status values `started, planning, assigning, coding, reviewing,
revising, completed, failed` plus the `coding_revision` state of the
§4.2 transition diagram. -/
inductive EngineStatus where
  | started
  | planning
  | assigning
  | coding
  | reviewing
  | revising
  | coding_revision
  | completed
  | failed
deriving DecidableEq, Repr

/-- A terminal engine state: `completed` or `failed`. -/
def EngineStatus.isTerminal : EngineStatus → Bool
  | .completed => true
  | .failed => true
  | _ => false

/-- Modelled from the spec: the `WorkflowJob` record of §3. -/
structure EngineJob where
  id : String
  task : String
  framework : String
  plan : List String
  files : List (String × String)
  iteration : Nat
  status : EngineStatus
  currentAgent : String
  error : Option String
deriving DecidableEq, Repr

/-- Modelled from the spec: `maxIterations = 3` (§3). -/
def maxIterations : Nat := 3

/-- Whether an `Except` outcome is a success. -/
def exceptOk : Except ε α → Bool
  | .ok _ => true
  | .error _ => false

/-- The success value of an `Except` outcome, or a default. -/
def exceptGetD : Except ε α → α → α
  | .ok a, _ => a
  | .error _, d => d

/-- Insert-or-overwrite one file into a file mapping (unique keys). -/
def putFile (m : List (String × String)) (kv : String × String) :
    List (String × String) :=
  if m.any (fun p => p.1 == kv.1) then
    m.map (fun p => if p.1 == kv.1 then kv else p)
  else
    m ++ [kv]

/-- Modelled from the spec: the Reducer (§4.2) — merge the per-subtask
file mappings into the accumulated mapping by key union,
last-applied-wins on a path collision. -/
def mergeFiles (base : List (String × String))
    (outputs : List (List (String × String))) : List (String × String) :=
  outputs.foldl (fun acc fs => fs.foldl putFile acc) base

/-- Modelled from the spec: the worker outcomes one workflow run
consumes.  `planner` yields the subtask list or a failure; `coder i` is
the fan-out Coder outcome for subtask `i`; `reviewerApproves i` is the
Reviewer's verdict at iteration `i`; `revisionCoder i` is the single
revision Coder outcome entered at iteration `i`. -/
structure WorkerOracle where
  planner : Except String (List String)
  coder : Nat → Except String (List (String × String))
  reviewerApproves : Nat → Bool
  revisionCoder : Nat → Except String (List (String × String))

/-- Modelled from the spec: one transition of the §4.2 state machine.

```
started -> planning
planning -> assigning | failed       (Planner outcome)
assigning -> coding                  (fan-out)
coding -> reviewing | failed         (join: all Coders, or any failure)
reviewing -> completed               (approved OR iteration == maxIterations)
reviewing -> revising                (rejected AND iteration < maxIterations)
revising -> coding_revision
coding_revision -> reviewing         (iteration += 1), or failed
```
Terminal states are fixed points. -/
def engineStep (w : WorkerOracle) (j : EngineJob) : EngineJob :=
  match j.status with
  | .started => { j with status := .planning, currentAgent := "planner" }
  | .planning =>
    match w.planner with
    | .ok subtasks => { j with status := .assigning, plan := subtasks }
    | .error e => { j with status := .failed, error := some e }
  | .assigning => { j with status := .coding, currentAgent := "coder" }
  | .coding =>
    if (List.range j.plan.length).all (fun i => exceptOk (w.coder i)) then
      { j with status := .reviewing
               currentAgent := "reviewer"
               files := mergeFiles j.files
                 ((List.range j.plan.length).map
                   (fun i => exceptGetD (w.coder i) [])) }
    else
      { j with status := .failed, error := some "coder task failed" }
  | .reviewing =>
    if w.reviewerApproves j.iteration || j.iteration == maxIterations then
      { j with status := .completed }
    else
      { j with status := .revising }
  | .revising => { j with status := .coding_revision, currentAgent := "coder" }
  | .coding_revision =>
    match w.revisionCoder j.iteration with
    | .ok fs =>
      { j with status := .reviewing
               iteration := j.iteration + 1
               files := mergeFiles j.files [fs] }
    | .error e => { j with status := .failed, error := some e }
  | .completed => j
  | .failed => j

/-- Modelled from the spec: run the engine until a terminal state, with
fuel bounding the number of transitions.  Because the revision loop is
capped at `maxIterations = 3`, every run from `started` reaches a
terminal state within 14 transitions, so the fixed fuel 20 used by
`runWorkflow` below is always sufficient. -/
def engineRun (w : WorkerOracle) (j : EngineJob) : Nat → EngineJob
  | 0 => j
  | fuel + 1 =>
    if j.status.isTerminal then j else engineRun w (engineStep w j) fuel

/-- Modelled from the spec: the fresh `WorkflowJob` the Workflow API
creates on a start request (§3, §4.4). -/
def newJob (id task framework : String) : EngineJob :=
  { id := id, task := task, framework := framework
    plan := [], files := [], iteration := 0
    status := .started, currentAgent := "", error := none }

/-- Modelled from the spec: the background execution of one job from its
creation to its terminal state (§4.3). -/
def runWorkflow (w : WorkerOracle) (id task framework : String) : EngineJob :=
  engineRun w (newJob id task framework) 20

/-- Modelled from the spec: the Workflow API's `StartWorkflow` operation
(§4.4, §6): register a fresh job under the given id and return
`{workflow_id, status: "started"}` immediately — a total function, so it
always succeeds synchronously; the dispatched background execution is
separate (`runWorkflow`). -/
def apiStartWorkflow (store : List (String × EngineJob))
    (id task framework : String) :
    List (String × EngineJob) × WorkflowStartResponse :=
  ((id, newJob id task framework) :: store,
   { workflow_id := id, status := "started", status_literal := rfl })

/-- The eight status values the specification's data model (§3) claims
for the `status` field, written from the spec's words for comparison
with the source's `workflowStatusValues`. -/
def specClaimedStatusValues : List String :=
  ["started", "planning", "assigning", "coding", "reviewing", "revising",
   "completed", "failed"]

/-!  Theorems.  -/

/-- Claim C1: every call made through the client raises `Unavailable`
(and never `ServiceError`) when the service process could not be reached
— timeout fired or network failure — and raises `ServiceError` carrying
the HTTP status code (and never `Unavailable`) when the service was
reached and replied with a non-ok status. -/
theorem request_error_taxonomy {α : Type} (baseUrl : String) (t : Nat)
    (o : FetchOutcome α) :
    (o.unreachable →
      (∃ m, request baseUrl t o = .error (.unavailable m)) ∧
      ∀ m s d, request baseUrl t o ≠ .error (.serviceError m s d)) ∧
    (∀ s st d, o = .httpError s st d →
      request baseUrl t o = .error (.serviceError
        ("Orchestrator request failed: " ++ toString s ++ " " ++ st) s d) ∧
      ∀ m, request baseUrl t o ≠ .error (.unavailable m)) := by
  constructor
  · intro hu
    cases o with
    | abortError => exact ⟨⟨_, rfl⟩, by intro m s d h; simp [request] at h⟩
    | networkError msg => exact ⟨⟨_, rfl⟩, by intro m s d h; simp [request] at h⟩
    | ok body => exact absurd hu (by simp [FetchOutcome.unreachable])
    | httpError s st d => exact absurd hu (by simp [FetchOutcome.unreachable])
    | otherError m => exact absurd hu (by simp [FetchOutcome.unreachable])
  · rintro s st d rfl
    exact ⟨rfl, by intro m h; simp [request] at h⟩

/-- Concrete instance of `request_error_taxonomy`: a fired timeout
yields `Unavailable`, and a 404 reply yields `ServiceError 404`. -/
theorem request_error_taxonomy_witness :
    (FetchOutcome.unreachable (FetchOutcome.abortError : FetchOutcome Nat)) ∧
    (∃ m, request "http://localhost:8001" 30000
        (FetchOutcome.abortError : FetchOutcome Nat) =
      .error (.unavailable m)) ∧
    (request "http://localhost:8001" 30000
        (FetchOutcome.httpError 404 "Not Found" (some "Workflow not found")
          : FetchOutcome Nat) =
      .error (.serviceError "Orchestrator request failed: 404 Not Found"
        404 (some "Workflow not found"))) := by
  refine ⟨trivial,
    ((request_error_taxonomy "http://localhost:8001" 30000
      (FetchOutcome.abortError : FetchOutcome Nat)).1 trivial).1, ?_⟩
  have h := ((request_error_taxonomy "http://localhost:8001" 30000
    (FetchOutcome.httpError 404 "Not Found" (some "Workflow not found")
      : FetchOutcome Nat)).2 404 "Not Found" (some "Workflow not found") rfl).1
  simpa using h

/-- Claim C2: `ai.orchestrate` falls back to the one-shot generation
exactly on `Unavailable` — the fallback result carries the `files` and
`explanation` of the one-shot call — and propagates every other error of
`startWorkflow` unchanged. -/
theorem orchestrate_unavailable_fallback
    (so : Except ClientError WorkflowStartResponse)
    (fg : Except String GenerationResult) :
    (∀ m g, so = .error (.unavailable m) → fg = .ok g →
      orchestrate so fg = .ok
        { workflowId := none, status := "completed"
          usedOrchestrator := false, files := some g.files
          explanation := some g.explanation }) ∧
    (∀ e, so = .error e → (∀ m, e ≠ .unavailable m) →
      orchestrate so fg = .error (.client e)) := by
  constructor
  · rintro m g rfl rfl
    rfl
  · rintro e rfl hne
    cases e with
    | unavailable m => exact absurd rfl (hne m)
    | serviceError m s d => rfl
    | other m => rfl

/-- Concrete instance of `orchestrate_unavailable_fallback`: an
unreachable service triggers the one-shot fallback, and a 404
`ServiceError` is propagated without fallback. -/
theorem orchestrate_unavailable_fallback_witness :
    orchestrate (.error (.unavailable "Failed to connect"))
        (.ok { files := [("/App.jsx", "code")], explanation := "an app" }) =
      .ok { workflowId := none, status := "completed"
            usedOrchestrator := false
            files := some [("/App.jsx", "code")]
            explanation := some "an app" } ∧
    orchestrate (.error (.serviceError "Orchestrator request failed: 404 Not Found" 404 none))
        (.ok { files := [("/App.jsx", "code")], explanation := "an app" }) =
      .error (.client (.serviceError "Orchestrator request failed: 404 Not Found" 404 none)) := by
  constructor
  · exact (orchestrate_unavailable_fallback _ _).1 "Failed to connect"
      { files := [("/App.jsx", "code")], explanation := "an app" } rfl rfl
  · exact (orchestrate_unavailable_fallback _ _).2 _ rfl (by intro m h; simp at h)

/-- Claim C7: a client constructed without an explicit timeout uses
exactly 30000 milliseconds as the per-request timeout of every call. -/
theorem default_timeout_is_30s (baseUrl : String) :
    (OrchestratorClient.create baseUrl none).timeout = 30000 ∧
    (createOrchestratorClient baseUrl none).timeout = 30000 ∧
    ∀ (α : Type),
      (OrchestratorClient.create baseUrl none).call
        (FetchOutcome.abortError : FetchOutcome α) =
      .error (.unavailable "Orchestrator request timed out after 30000ms") := by
  refine ⟨rfl, rfl, fun α => ?_⟩
  have h30 : (toString (30000 : Nat)) = "30000" := by decide
  show request (stripTrailingSlash baseUrl) 30000
    (FetchOutcome.abortError : FetchOutcome α) = _
  simp [request, h30]

/-- Claim C10: `isHealthy` is total — it returns a boolean for every
fetch outcome, never raising — and returns `true` exactly when the
health endpoint replied successfully with body status `"ok"`. -/
theorem isHealthy_total_boolean (u : String) (t : Nat)
    (o : FetchOutcome HealthResponse) :
    isHealthy u t o = true ↔ ∃ b, o = .ok b ∧ b.status = "ok" := by
  cases o <;> simp [isHealthy, request]

/-- Claim C4, counterexample: the source's status vocabulary is not the
eight values the specification claims — `"running"` is a member of the
source union type but not of the claimed list, and no member of the
source union type is the claimed `"planning"`. -/
theorem workflowStatus_vocabulary_counterexample :
    WorkflowStatus.toStr .running ∉ specClaimedStatusValues ∧
    ¬ ∃ s : WorkflowStatus, s.toStr = "planning" := by
  decide

/-- Claim C4 as amended: the `status` field ranges over exactly the
eight values `started, running, planning_complete, needs_revision,
coding_revision, completed, failed, unknown` — every member of the
source union maps into this list, every listed value is realised, and
the list has eight distinct entries. -/
theorem workflowStatus_vocabulary_exact :
    (∀ s : WorkflowStatus, s.toStr ∈ workflowStatusValues) ∧
    (∀ v, v ∈ workflowStatusValues → ∃ s : WorkflowStatus, s.toStr = v) ∧
    workflowStatusValues.length = 8 ∧ workflowStatusValues.Nodup := by
  decide

/-- Concrete instance of `workflowStatus_vocabulary_exact`: the value
`"running"` of the list is realised by a status member. -/
theorem workflowStatus_vocabulary_exact_witness :
    ∃ s : WorkflowStatus, s.toStr = "running" :=
  workflowStatus_vocabulary_exact.2.1 "running" (by decide)

/-- Claim C6: the Workflow API's start operation is a total function —
it always succeeds synchronously — returning exactly a workflow id and
the literal status `"started"`, and storing the new job in the
non-terminal `started` state so that any later failure is observable
only by polling the store; on the client side, every successfully parsed
start response likewise carries status `"started"`. -/
theorem startWorkflow_synchronous_contract
    (store : List (String × EngineJob)) (id task fw : String) :
    ((apiStartWorkflow store id task fw).2.workflow_id = id ∧
     (apiStartWorkflow store id task fw).2.status = "started") ∧
    (∃ j, (apiStartWorkflow store id task fw).1 = (id, j) :: store ∧
      j.status = .started ∧ j.status.isTerminal = false) ∧
    (∀ (c : OrchestratorClient) (r : WorkflowStartResponse),
      c.startWorkflow (.ok r) = .ok r ∧ r.status = "started") :=
  ⟨⟨rfl, rfl⟩, ⟨newJob id task fw, rfl, rfl, rfl⟩,
   fun _ r => ⟨rfl, r.status_literal⟩⟩

/-- Claim C9, counterexample: when the status call succeeds with a
terminal status but fetching the result raises `Unavailable`, the query
returns the status-only view — status `completed`, no error message —
rather than a `failed` view; and when the result fetch raises a
`ServiceError`, that non-`Unavailable` error is swallowed rather than
propagated. -/
theorem workflowStatus_result_error_counterexample :
    (∃ v, workflowStatusQuery "wf-1"
        (.ok { workflow_id := "wf-1", status := .completed
               current_agent := "reviewer", iteration := 0, error := none })
        (.error (.unavailable "Failed to connect")) = .ok v ∧
      v.status ≠ .failed ∧ v.error = none) ∧
    workflowStatusQuery "wf-1"
        (.ok { workflow_id := "wf-1", status := .completed
               current_agent := "reviewer", iteration := 0, error := none })
        (.error (.serviceError "Orchestrator request failed: 404 Not Found" 404 none)) ≠
      .error (.serviceError "Orchestrator request failed: 404 Not Found" 404 none) := by
  constructor
  · exact ⟨_, rfl, by decide, rfl⟩
  · simp [workflowStatusQuery]

/-- Claim C9 as amended: if the workflow-status call itself raises
`Unavailable`, the query returns the synthetic view with status `failed`
and an error message instead of propagating; any non-`Unavailable` error
of the status call is propagated; and an error of either kind while
fetching the result of a terminal workflow is swallowed, the query
returning the status-only view. -/
theorem workflowStatus_unavailable_fallback (wid : String)
    (so : Except ClientError WorkflowStatusResponse)
    (ro : Except ClientError WorkflowResultResponse) :
    (∀ m, so = .error (.unavailable m) →
      workflowStatusQuery wid so ro = .ok
        { workflowId := wid, status := .failed
          currentAgent := none, iteration := none
          files := none, plan := none, explanation := none
          error := some "Orchestrator service is unavailable" }) ∧
    (∀ e, so = .error e → (∀ m, e ≠ .unavailable m) →
      workflowStatusQuery wid so ro = .error e) ∧
    (∀ s, so = .ok s → (s.status = .completed ∨ s.status = .failed) →
      ∀ e, ro = .error e →
        workflowStatusQuery wid so ro = .ok
          { workflowId := wid, status := s.status
            currentAgent := some s.current_agent
            iteration := some s.iteration
            files := none, plan := none, explanation := none
            error := s.error }) := by
  refine ⟨?_, ?_, ?_⟩
  · rintro m rfl
    rfl
  · rintro e rfl hne
    cases e with
    | unavailable m => exact absurd rfl (hne m)
    | serviceError m s d => rfl
    | other m => rfl
  · rintro s rfl hterm e rfl
    simp [workflowStatusQuery, hterm]

/-- Concrete instance of `workflowStatus_unavailable_fallback`: an
unreachable orchestrator on the status call yields the synthetic
`failed` view; a 404 on the status call is propagated; a result-fetch
error on a completed workflow yields the status-only view. -/
theorem workflowStatus_unavailable_fallback_witness :
    workflowStatusQuery "wf-2" (.error (.unavailable "Failed to connect"))
        (.ok { workflow_id := "wf-2", status := .completed, files := []
               plan := [], explanation := none }) =
      .ok { workflowId := "wf-2", status := .failed
            currentAgent := none, iteration := none
            files := none, plan := none, explanation := none
            error := some "Orchestrator service is unavailable" } ∧
    workflowStatusQuery "wf-2"
        (.error (.serviceError "Orchestrator request failed: 404 Not Found" 404 none))
        (.ok { workflow_id := "wf-2", status := .completed, files := []
               plan := [], explanation := none }) =
      .error (.serviceError "Orchestrator request failed: 404 Not Found" 404 none) ∧
    workflowStatusQuery "wf-2"
        (.ok { workflow_id := "wf-2", status := .completed
               current_agent := "reviewer", iteration := 1, error := none })
        (.error (.unavailable "Failed to connect")) =
      .ok { workflowId := "wf-2", status := .completed
            currentAgent := some "reviewer", iteration := some 1
            files := none, plan := none, explanation := none
            error := none } := by
  refine ⟨?_, ?_, ?_⟩
  · exact (workflowStatus_unavailable_fallback "wf-2" _ _).1
      "Failed to connect" rfl
  · exact (workflowStatus_unavailable_fallback "wf-2" _ _).2.1
      _ rfl (by intro m h; simp at h)
  · exact (workflowStatus_unavailable_fallback "wf-2" _ _).2.2
      _ rfl (Or.inl rfl) _ rfl

/-- Helper: while every poll inside the wait budget yields a
non-terminal status, the loop ends in the timeout error (also when the
fuel runs out, since fuel exhaustion yields the same error). -/
lemma waitLoop_timeout_of_no_terminal
    (poll : Nat → Except ClientError WorkflowStatusResponse)
    (result : Except ClientError WorkflowResultResponse)
    (wid : String) (pollInterval maxWait : Nat) :
    ∀ fuel k,
      (∀ i, k ≤ i → i * pollInterval < maxWait → ∃ s, poll i = .ok s ∧
        s.status ≠ .completed ∧ s.status ≠ .failed) →
      waitLoop poll result wid pollInterval maxWait k fuel =
        .error (pollTimeoutError wid maxWait) := by
  intro fuel
  induction fuel with
  | zero => intro k _; rfl
  | succ n ih =>
    intro k h
    by_cases hk : k * pollInterval < maxWait
    · obtain ⟨s, hs, hc, hf⟩ := h k le_rfl hk
      simp only [waitLoop, if_pos hk, hs]
      rw [if_neg hc, if_neg hf]
      exact ih (k + 1) (fun i hi him => h i (Nat.le_of_succ_le hi) him)
    · simp only [waitLoop, if_neg hk]

/-- Helper: if the first terminal status inside the wait budget is
`completed`, the loop returns the result outcome. -/
lemma waitLoop_result_of_completed
    (poll : Nat → Except ClientError WorkflowStatusResponse)
    (result : Except ClientError WorkflowResultResponse)
    (wid : String) (pollInterval maxWait : Nat) :
    ∀ fuel k j, k ≤ j → j - k < fuel → j * pollInterval < maxWait →
      (∀ i, k ≤ i → i < j → ∃ s, poll i = .ok s ∧
        s.status ≠ .completed ∧ s.status ≠ .failed) →
      (∃ s, poll j = .ok s ∧ s.status = .completed) →
      waitLoop poll result wid pollInterval maxWait k fuel = result := by
  intro fuel
  induction fuel with
  | zero => intro k j _ hlt _ _ _; omega
  | succ n ih =>
    intro k j hkj hlt hj hpre hcomp
    rcases Nat.eq_or_lt_of_le hkj with rfl | hkj
    · obtain ⟨s, hs, hc⟩ := hcomp
      simp only [waitLoop, if_pos hj, hs]
      rw [if_pos hc]
    · have hk : k * pollInterval < maxWait :=
        lt_of_le_of_lt (mul_le_mul_right' (le_of_lt hkj) pollInterval) hj
      obtain ⟨s, hs, hc, hf⟩ := hpre k le_rfl hkj
      simp only [waitLoop, if_pos hk, hs]
      rw [if_neg hc, if_neg hf]
      exact ih (k + 1) j hkj (by omega) hj
        (fun i hi him => hpre i (Nat.le_of_succ_le hi) him) hcomp

/-- Helper: if the first terminal status inside the wait budget is
`failed`, the loop throws the failed-workflow error. -/
lemma waitLoop_error_of_failed
    (poll : Nat → Except ClientError WorkflowStatusResponse)
    (result : Except ClientError WorkflowResultResponse)
    (wid : String) (pollInterval maxWait : Nat) :
    ∀ fuel k j s, k ≤ j → j - k < fuel → j * pollInterval < maxWait →
      (∀ i, k ≤ i → i < j → ∃ t, poll i = .ok t ∧
        t.status ≠ .completed ∧ t.status ≠ .failed) →
      poll j = .ok s → s.status = .failed →
      waitLoop poll result wid pollInterval maxWait k fuel =
        .error (failedWorkflowError wid s.error) := by
  intro fuel
  induction fuel with
  | zero => intro k j _ _ hlt _ _ _ _; omega
  | succ n ih =>
    intro k j s hkj hlt hj hpre hs hfail
    rcases Nat.eq_or_lt_of_le hkj with rfl | hkj
    · have hc : s.status ≠ .completed := by rw [hfail]; decide
      simp only [waitLoop, if_pos hj, hs]
      rw [if_neg hc, if_pos hfail]
    · have hk : k * pollInterval < maxWait :=
        lt_of_le_of_lt (mul_le_mul_right' (le_of_lt hkj) pollInterval) hj
      obtain ⟨t, ht, hc, hf⟩ := hpre k le_rfl hkj
      simp only [waitLoop, if_pos hk, ht]
      rw [if_neg hc, if_neg hf]
      exact ih (k + 1) j s hkj (by omega) hj
        (fun i hi him => hpre i (Nat.le_of_succ_le hi) him) hs hfail

/-- Claim C3: `waitForCompletion` polls the status repeatedly; when
`maxWait` elapses with no terminal state observed it raises the timeout
error (HTTP status 408, Request Timeout), and when a `completed` status
is observed it returns the workflow result instead of raising. -/
theorem waitForCompletion_terminal_or_timeout
    (poll : Nat → Except ClientError WorkflowStatusResponse)
    (result : Except ClientError WorkflowResultResponse)
    (wid : String) (pollInterval maxWait : Nat) (hpi : 1 ≤ pollInterval) :
    ((∀ k, k * pollInterval < maxWait → ∃ s, poll k = .ok s ∧
        s.status ≠ .completed ∧ s.status ≠ .failed) →
      waitForCompletion poll result wid pollInterval maxWait =
        .error (pollTimeoutError wid maxWait)) ∧
    (∀ j r, j * pollInterval < maxWait → result = .ok r →
      (∀ i, i < j → ∃ s, poll i = .ok s ∧
        s.status ≠ .completed ∧ s.status ≠ .failed) →
      (∃ s, poll j = .ok s ∧ s.status = .completed) →
      waitForCompletion poll result wid pollInterval maxWait = .ok r) := by
  constructor
  · intro h
    exact waitLoop_timeout_of_no_terminal poll result wid pollInterval maxWait
      (maxWait + 1) 0 (fun i _ him => h i him)
  · rintro j r hj hres hpre hcomp
    have hjm : j ≤ j * pollInterval := Nat.le_mul_of_pos_right j hpi
    rw [← hres]
    exact waitLoop_result_of_completed poll result wid pollInterval maxWait
      (maxWait + 1) 0 j (Nat.zero_le j) (by omega) hj
      (fun i _ him => hpre i him) hcomp

/-- Concrete instance of `waitForCompletion_terminal_or_timeout`: a
status stuck at `running` times out after `maxWait`, and a status that
becomes `completed` on the third poll returns the result. -/
theorem waitForCompletion_terminal_or_timeout_witness :
    waitForCompletion
        (fun _ => .ok { workflow_id := "wf-3", status := .running
                        current_agent := "planner", iteration := 0, error := none })
        (.ok { workflow_id := "wf-3", status := .completed
               files := [("/App.jsx", "x")], plan := ["p"], explanation := none })
        "wf-3" 1000 3000 =
      .error (pollTimeoutError "wf-3" 3000) ∧
    waitForCompletion
        (fun k => if k < 2 then
            .ok { workflow_id := "wf-3", status := .running
                  current_agent := "planner", iteration := 0, error := none }
          else
            .ok { workflow_id := "wf-3", status := .completed
                  current_agent := "reviewer", iteration := 1, error := none })
        (.ok { workflow_id := "wf-3", status := .completed
               files := [("/App.jsx", "x")], plan := ["p"], explanation := none })
        "wf-3" 1000 5000 =
      .ok { workflow_id := "wf-3", status := .completed
            files := [("/App.jsx", "x")], plan := ["p"], explanation := none } := by
  constructor
  · exact (waitForCompletion_terminal_or_timeout _ _ "wf-3" 1000 3000
      (by norm_num)).1
      (fun k _ => ⟨_, rfl, by decide, by decide⟩)
  · exact (waitForCompletion_terminal_or_timeout _ _ "wf-3" 1000 5000
      (by norm_num)).2 2 _ (by norm_num) rfl
      (fun i hi => ⟨_, if_pos hi, by decide, by decide⟩)
      ⟨_, if_neg (by omega), by decide⟩

/-- Claim C8: when the polled status becomes `failed`,
`waitForCompletion` raises an `OrchestratorServiceError` (HTTP status
500) whose message and detail carry the job's recorded error, and does
not return a result value even though `failed` is terminal. -/
theorem waitForCompletion_failed_raises
    (poll : Nat → Except ClientError WorkflowStatusResponse)
    (result : Except ClientError WorkflowResultResponse)
    (wid : String) (pollInterval maxWait : Nat) (hpi : 1 ≤ pollInterval)
    (j : Nat) (s : WorkflowStatusResponse)
    (hj : j * pollInterval < maxWait)
    (hpre : ∀ i, i < j → ∃ t, poll i = .ok t ∧
      t.status ≠ .completed ∧ t.status ≠ .failed)
    (hs : poll j = .ok s) (hfail : s.status = .failed) :
    waitForCompletion poll result wid pollInterval maxWait =
      .error (failedWorkflowError wid s.error) ∧
    ∀ e, s.error = some e → e ≠ "" →
      failedWorkflowError wid s.error =
        .serviceError ("Workflow " ++ wid ++ " failed: " ++ e) 500 (some e) := by
  constructor
  · have hjm : j ≤ j * pollInterval := Nat.le_mul_of_pos_right j hpi
    exact waitLoop_error_of_failed poll result wid pollInterval maxWait
      (maxWait + 1) 0 j s (Nat.zero_le j) (by omega) hj
      (fun i _ him => hpre i him) hs hfail
  · intro e he hne
    rw [he]
    simp [failedWorkflowError, errorTextOrDefault, errorDetailOrNone, hne]

/-- Concrete instance of `waitForCompletion_failed_raises`: a job whose
first poll reports `failed` with recorded error `"boom"` makes
`waitForCompletion` raise the 500 `ServiceError` carrying `"boom"`. -/
theorem waitForCompletion_failed_raises_witness :
    waitForCompletion
        (fun _ => .ok { workflow_id := "wf-4", status := .failed
                        current_agent := "coder", iteration := 0
                        error := some "boom" })
        (.ok { workflow_id := "wf-4", status := .completed
               files := [], plan := [], explanation := none })
        "wf-4" 1000 5000 =
      .error (.serviceError "Workflow wf-4 failed: boom" 500 (some "boom")) := by
  have h := waitForCompletion_failed_raises
    (fun _ => .ok { workflow_id := "wf-4", status := .failed
                    current_agent := "coder", iteration := 0
                    error := some "boom" })
    (.ok { workflow_id := "wf-4", status := .completed
           files := [], plan := [], explanation := none })
    "wf-4" 1000 5000 (by norm_num) 0
    { workflow_id := "wf-4", status := .failed
      current_agent := "coder", iteration := 0, error := some "boom" }
    (by norm_num) (fun i hi => absurd hi (Nat.not_lt_zero i)) rfl rfl
  rw [h.1, h.2 "boom" rfl (by decide)]
  simp

/-- Helper: a terminal job is a fixed point of the engine run. -/
lemma engineRun_terminal (w : WorkerOracle) (j : EngineJob)
    (h : j.status.isTerminal = true) :
    ∀ fuel, engineRun w j fuel = j := by
  intro fuel
  cases fuel with
  | zero => rfl
  | succ n => simp [engineRun, h]

/-- Helper: a non-terminal job takes one transition per unit of fuel. -/
lemma engineRun_step (w : WorkerOracle) (j : EngineJob) (fuel : Nat)
    (h : j.status.isTerminal = false) :
    engineRun w j (fuel + 1) = engineRun w (engineStep w j) fuel := by
  simp [engineRun, h]

/-- Helper: one full revision cycle
(`reviewing → revising → coding_revision → reviewing`) under a
rejection below the iteration cap and a successful revision Coder:
three transitions, iteration incremented, revision files merged. -/
lemma engineRun_cycle (w : WorkerOracle) (jid jtask jfw : String)
    (jplan : List String) (jfiles : List (String × String)) (jit : Nat)
    (jca : String) (jerr : Option String) (n : Nat)
    (fs : List (String × String))
    (hrej : w.reviewerApproves jit = false)
    (hne : jit ≠ maxIterations)
    (hfs : w.revisionCoder jit = .ok fs) :
    engineRun w ⟨jid, jtask, jfw, jplan, jfiles, jit, .reviewing, jca, jerr⟩
        (n + 1 + 1 + 1) =
      engineRun w ⟨jid, jtask, jfw, jplan, mergeFiles jfiles [fs], jit + 1,
        .reviewing, "coder", jerr⟩ n := by
  rw [engineRun_step w ⟨jid, jtask, jfw, jplan, jfiles, jit, .reviewing, jca, jerr⟩ _ rfl]
  have e1 : engineStep w ⟨jid, jtask, jfw, jplan, jfiles, jit, .reviewing, jca, jerr⟩ =
      ⟨jid, jtask, jfw, jplan, jfiles, jit, .revising, jca, jerr⟩ := by
    simp [engineStep, hrej, beq_eq_false_iff_ne.mpr hne]
  rw [e1, engineRun_step w ⟨jid, jtask, jfw, jplan, jfiles, jit, .revising, jca, jerr⟩ _ rfl]
  have e2 : engineStep w ⟨jid, jtask, jfw, jplan, jfiles, jit, .revising, jca, jerr⟩ =
      ⟨jid, jtask, jfw, jplan, jfiles, jit, .coding_revision, "coder", jerr⟩ := rfl
  rw [e2, engineRun_step w ⟨jid, jtask, jfw, jplan, jfiles, jit, .coding_revision, "coder", jerr⟩ _ rfl]
  have e3 : engineStep w ⟨jid, jtask, jfw, jplan, jfiles, jit, .coding_revision, "coder", jerr⟩ =
      ⟨jid, jtask, jfw, jplan, mergeFiles jfiles [fs], jit + 1,
        .reviewing, "coder", jerr⟩ := by
    simp [engineStep, hfs]
  rw [e3]

/-- Helper: with a Reviewer that rejects every iteration and revision
Coders that succeed, a job in `reviewing` with `d` iterations left
before the cap reaches `completed` with `iteration = maxIterations`. -/
lemma engineRun_reject_loop (w : WorkerOracle)
    (hrej : ∀ i, w.reviewerApproves i = false)
    (hrc : ∀ i, exceptOk (w.revisionCoder i) = true) :
    ∀ d (jid jtask jfw : String) (jplan : List String)
      (jfiles : List (String × String)) (jit : Nat) (jca : String)
      (jerr : Option String), jit + d = maxIterations →
      ∀ fuel, 3 * d + 1 ≤ fuel →
        (engineRun w ⟨jid, jtask, jfw, jplan, jfiles, jit, .reviewing, jca, jerr⟩
          fuel).status = .completed ∧
        (engineRun w ⟨jid, jtask, jfw, jplan, jfiles, jit, .reviewing, jca, jerr⟩
          fuel).iteration = maxIterations := by
  intro d
  induction d with
  | zero =>
    intro jid jtask jfw jplan jfiles jit jca jerr hit fuel hfuel
    have hj3 : jit = 3 := by simpa [maxIterations] using hit
    subst hj3
    obtain ⟨n, rfl⟩ : ∃ n, fuel = n + 1 := ⟨fuel - 1, by omega⟩
    rw [engineRun_step w ⟨jid, jtask, jfw, jplan, jfiles, 3, .reviewing, jca, jerr⟩ _ rfl]
    have e : engineStep w ⟨jid, jtask, jfw, jplan, jfiles, 3, .reviewing, jca, jerr⟩ =
        ⟨jid, jtask, jfw, jplan, jfiles, 3, .completed, jca, jerr⟩ := by
      simp [engineStep, maxIterations]
    rw [e, engineRun_terminal w ⟨jid, jtask, jfw, jplan, jfiles, 3, .completed, jca, jerr⟩ rfl n]
    exact ⟨rfl, rfl⟩
  | succ d ih =>
    intro jid jtask jfw jplan jfiles jit jca jerr hit fuel hfuel
    have hne : jit ≠ maxIterations := by
      simp only [maxIterations] at hit ⊢
      omega
    obtain ⟨fs, hfs⟩ : ∃ fs, w.revisionCoder jit = .ok fs := by
      have h := hrc jit
      cases hx : w.revisionCoder jit with
      | ok fs => exact ⟨fs, rfl⟩
      | error e => rw [hx] at h; exact absurd h (by simp [exceptOk])
    obtain ⟨n, rfl⟩ : ∃ n, fuel = n + 1 + 1 + 1 := ⟨fuel - 3, by omega⟩
    rw [engineRun_cycle w jid jtask jfw jplan jfiles jit jca jerr n fs
      (hrej jit) hne hfs]
    exact ih jid jtask jfw jplan (mergeFiles jfiles [fs]) (jit + 1) "coder" jerr
      (by simp only [maxIterations] at hit ⊢; omega) n (by omega)

/-- Helper: from a fresh job, a successful Planner and an all-successful
Coder fan-out reach `reviewing` in four transitions, with iteration
still 0 and the plan set. -/
lemma engineRun_to_reviewing (w : WorkerOracle) (id task fw : String)
    (ps : List String)
    (hplan : w.planner = .ok ps)
    (hcoder : ∀ i, exceptOk (w.coder i) = true) :
    ∀ fuel, engineRun w (newJob id task fw) (fuel + 1 + 1 + 1 + 1) =
      engineRun w ⟨id, task, fw, ps,
        mergeFiles []
          ((List.range ps.length).map (fun i => exceptGetD (w.coder i) [])),
        0, .reviewing, "reviewer", none⟩ fuel := by
  intro fuel
  have hall : ((List.range ps.length).all (fun i => exceptOk (w.coder i))) = true := by
    rw [List.all_eq_true]
    intro i _
    exact hcoder i
  have hnew : newJob id task fw = ⟨id, task, fw, [], [], 0, .started, "", none⟩ := rfl
  rw [hnew, engineRun_step w ⟨id, task, fw, [], [], 0, .started, "", none⟩ _ rfl]
  have e1 : engineStep w ⟨id, task, fw, [], [], 0, .started, "", none⟩ =
      ⟨id, task, fw, [], [], 0, .planning, "planner", none⟩ := rfl
  rw [e1, engineRun_step w ⟨id, task, fw, [], [], 0, .planning, "planner", none⟩ _ rfl]
  have e2 : engineStep w ⟨id, task, fw, [], [], 0, .planning, "planner", none⟩ =
      ⟨id, task, fw, ps, [], 0, .assigning, "planner", none⟩ := by
    simp [engineStep, hplan]
  rw [e2, engineRun_step w ⟨id, task, fw, ps, [], 0, .assigning, "planner", none⟩ _ rfl]
  have e3 : engineStep w ⟨id, task, fw, ps, [], 0, .assigning, "planner", none⟩ =
      ⟨id, task, fw, ps, [], 0, .coding, "coder", none⟩ := rfl
  rw [e3, engineRun_step w ⟨id, task, fw, ps, [], 0, .coding, "coder", none⟩ _ rfl]
  have e4 : engineStep w ⟨id, task, fw, ps, [], 0, .coding, "coder", none⟩ =
      ⟨id, task, fw, ps,
        mergeFiles []
          ((List.range ps.length).map (fun i => exceptGetD (w.coder i) [])),
        0, .reviewing, "reviewer", none⟩ := by
    simp [engineStep, hall]
  rw [e4]

/-- Claim C5: when the Reviewer rejects on every attempt (and the
Planner and all Coders succeed), the job still reaches `completed` —
not `failed` — with `iteration = 3`: exhausting `maxIterations` is a
soft success. -/
theorem revision_exhaustion_soft_success (w : WorkerOracle)
    (id task fw : String) (ps : List String)
    (hplan : w.planner = .ok ps)
    (hcoder : ∀ i, exceptOk (w.coder i) = true)
    (hrej : ∀ i, w.reviewerApproves i = false)
    (hrc : ∀ i, exceptOk (w.revisionCoder i) = true) :
    (runWorkflow w id task fw).status = .completed ∧
    (runWorkflow w id task fw).iteration = 3 := by
  unfold runWorkflow
  rw [show (20 : Nat) = 16 + 1 + 1 + 1 + 1 from rfl]
  rw [engineRun_to_reviewing w id task fw ps hplan hcoder 16]
  exact engineRun_reject_loop w hrej hrc 3 id task fw ps _ 0 "reviewer" none
    rfl 16 (by norm_num)

/-- Concrete instance of `revision_exhaustion_soft_success`: a two-task
plan whose Reviewer always rejects completes with iteration 3. -/
theorem revision_exhaustion_soft_success_witness :
    (runWorkflow
      { planner := .ok ["header", "footer"]
        coder := fun _ => .ok [("/App.jsx", "code")]
        reviewerApproves := fun _ => false
        revisionCoder := fun _ => .ok [("/App.jsx", "better code")] }
      "wf-5" "Create a todo app" "react").status = .completed ∧
    (runWorkflow
      { planner := .ok ["header", "footer"]
        coder := fun _ => .ok [("/App.jsx", "code")]
        reviewerApproves := fun _ => false
        revisionCoder := fun _ => .ok [("/App.jsx", "better code")] }
      "wf-5" "Create a todo app" "react").iteration = 3 :=
  revision_exhaustion_soft_success _ "wf-5" "Create a todo app" "react"
    ["header", "footer"] rfl (fun _ => rfl) (fun _ => rfl) (fun _ => rfl)

end ManusBuilder






